import Mathlib

/-!
Verification of the summary-network architectures of `bayesflow/summary_networks.py`:
`SetTransformer`, `DeepSet`, `InvariantNetwork` (deprecated alias), `SequentialNetwork`
and `SplitNetwork`.

Tensors of shape `(batch, set_size, feature)` are modelled as functions
`Fin b → Fin n → V`; the dense / attention / convolution / recurrent primitive
layers are external collaborators and appear as abstract functions together with
the shape, equivariance and invariance contracts the spec assigns them.
-/

/-- A batched set (or time-series) tensor of shape `(batch, set_size, ·)`:
batch index first, then element index. -/
abbrev STensor (b n : Nat) (V : Type) := Fin b → Fin n → V

/-- A batched tensor of shape `(batch, ·)` after the element axis is collapsed. -/
abbrev BTensor (b : Nat) (W : Type) := Fin b → W

/-- Apply a permutation of the element (set) axis to every batch element. -/
def permuteSet {b n : Nat} {V : Type} (σ : Equiv.Perm (Fin n)) (x : STensor b n V) :
    STensor b n V :=
  fun j i => x j (σ i)

/-- The permutation-equivariance contract of the spec for a layer acting on the
set axis: permuting the input permutes the output identically. -/
def EquivariantFn {b n : Nat} {V : Type} (f : STensor b n V → STensor b n V) : Prop :=
  ∀ (σ : Equiv.Perm (Fin n)) (x : STensor b n V), f (permuteSet σ x) = permuteSet σ (f x)

/-- The permutation-invariance contract of the spec for a pooling layer that
collapses the set axis: the output ignores any reordering of the elements. -/
def InvariantFn {b n : Nat} {V : Type} {W : Type} (g : STensor b n V → W) : Prop :=
  ∀ (σ : Equiv.Perm (Fin n)) (x : STensor b n V), g (permuteSet σ x) = g x

/-- Sequential application of a stack of layers (a `tf.keras.Sequential` of
same-shape layers), first layer first. -/
def applyLayers {T : Type} (layers : List (T → T)) (x : T) : T :=
  layers.foldl (fun acc f => f acc) x

theorem applyLayers_nil {T : Type} (x : T) : applyLayers ([] : List (T → T)) x = x := rfl

theorem applyLayers_cons {T : Type} (f : T → T) (fs : List (T → T)) (x : T) :
    applyLayers (f :: fs) x = applyLayers fs (f x) := rfl

/-- A stack of layers that each satisfy the equivariance contract is itself
equivariant. -/
theorem applyLayers_equivariant {b n : Nat} {V : Type}
    (layers : List (STensor b n V → STensor b n V))
    (h : ∀ f ∈ layers, EquivariantFn f) :
    EquivariantFn (applyLayers layers) := by
  induction layers with
  | nil => intro σ x; rfl
  | cons f fs ih =>
    intro σ x
    rw [applyLayers_cons, applyLayers_cons, h f (List.mem_cons_self f fs) σ x]
    exact ih (fun g hg => h g (List.mem_cons_of_mem f hg)) σ (f x)

/-! ## SetTransformer construction (summary_networks.py, lines 101-116) -/

/-- A self-attention block as constructed in `SetTransformer.__init__`:
either an `InducedSelfAttentionBlock` (carrying the number of inducing points)
or a vanilla `SelfAttentionBlock`. The attention/dense settings are opaque
external configuration and are carried as an identifier. -/
inductive AttnBlock
  | induced (inputDim numDenseFc numInducingPoints : Nat)
  | vanilla (inputDim numDenseFc : Nat)
deriving DecidableEq, Repr

/-- The result of the block-construction loop of `SetTransformer.__init__`:
`constructed` records every block the loop body built, `stack` records the
blocks actually added to `self.attention_blocks`. -/
structure STBlocks where
  constructed : List AttnBlock
  stack : List AttnBlock
deriving DecidableEq, Repr

/-- Embeds the loop of `SetTransformer.__init__` (lines 103-112): for each of
`num_attention_blocks` iterations, when `num_inducing_points` is not `None` an
`InducedSelfAttentionBlock` is constructed, otherwise a `SelfAttentionBlock` is
constructed and — only in this `else` branch — added to `self.attention_blocks`. -/
def SetTransformer.buildBlocks (inputDim numDenseFc numAttentionBlocks : Nat)
    (numInducingPoints : Option Nat) : STBlocks :=
  (List.range numAttentionBlocks).foldl
    (fun st _ =>
      match numInducingPoints with
      | some m =>
          let block := AttnBlock.induced inputDim numDenseFc m
          ⟨st.constructed ++ [block], st.stack⟩
      | none =>
          let block := AttnBlock.vanilla inputDim numDenseFc
          ⟨st.constructed ++ [block], st.stack ++ [block]⟩)
    ⟨[], []⟩

/-- Claim C1: the claim states that the composed attention stack contains exactly
`num_attention_blocks` blocks in both configuration branches, every constructed
block being appended regardless of branch. The code appends only in the vanilla
(`num_inducing_points is None`) branch: constructing a `SetTransformer` with
`input_dim = 4`, `num_dense_fc = 2`, `num_attention_blocks = 2` and
`num_inducing_points = 16` builds two induced blocks but leaves
`self.attention_blocks` empty, while the vanilla configuration does yield a
stack of two blocks. -/
theorem C1_attention_stack_drops_induced_blocks :
    (SetTransformer.buildBlocks 4 2 2 (some 16)).constructed.length = 2 ∧
    (SetTransformer.buildBlocks 4 2 2 (some 16)).stack.length = 0 ∧
    (SetTransformer.buildBlocks 4 2 2 none).constructed.length = 2 ∧
    (SetTransformer.buildBlocks 4 2 2 none).stack.length = 2 := by
  decide

/-! ## Forward passes of DeepSet and SetTransformer

`DeepSet.call` (lines 215-236): equivariant stack, then invariant module, then
output dense layer. `SetTransformer.call` (lines 118-134): attention stack, then
attention pooler. The primitive layers are abstract parameters. -/

/-- Embeds `DeepSet.call` (lines 230-236): `out_equiv = self.equiv_layers(x)`,
then `out = self.out_layer(self.inv(out_equiv))`. -/
def DeepSet.call {b n : Nat} {V W U : Type}
    (equivLayers : List (STensor b n V → STensor b n V))
    (inv : STensor b n V → BTensor b W)
    (outLayer : BTensor b W → BTensor b U)
    (x : STensor b n V) : BTensor b U :=
  outLayer (inv (applyLayers equivLayers x))

/-- Embeds `SetTransformer.call` (lines 132-134): `out = self.attention_blocks(x)`,
then `out = self.pooler(out)`. -/
def SetTransformer.call {b n : Nat} {V P : Type}
    (attentionBlocks : List (STensor b n V → STensor b n V))
    (pooler : STensor b n V → P)
    (x : STensor b n V) : P :=
  pooler (applyLayers attentionBlocks x)

/-- Claim C2: for every `DeepSet` and every `SetTransformer`, permuting the set
axis of the input leaves the output unchanged, provided every equivariant layer
and every self-attention block satisfies the equivariance contract and the
invariant module and the attention pooler satisfy the invariance contract. -/
theorem C2_permutation_invariance {b n : Nat} {V W U P : Type}
    (equivLayers : List (STensor b n V → STensor b n V))
    (inv : STensor b n V → BTensor b W)
    (outLayer : BTensor b W → BTensor b U)
    (attentionBlocks : List (STensor b n V → STensor b n V))
    (pooler : STensor b n V → P)
    (hEquiv : ∀ f ∈ equivLayers, EquivariantFn f)
    (hInv : InvariantFn inv)
    (hAtt : ∀ f ∈ attentionBlocks, EquivariantFn f)
    (hPool : InvariantFn pooler)
    (x : STensor b n V) (σ : Equiv.Perm (Fin n)) :
    DeepSet.call equivLayers inv outLayer (permuteSet σ x) =
      DeepSet.call equivLayers inv outLayer x ∧
    SetTransformer.call attentionBlocks pooler (permuteSet σ x) =
      SetTransformer.call attentionBlocks pooler x := by
  constructor
  · show outLayer (inv (applyLayers equivLayers (permuteSet σ x))) = _
    rw [applyLayers_equivariant equivLayers hEquiv σ x, hInv σ (applyLayers equivLayers x)]
    rfl
  · show pooler (applyLayers attentionBlocks (permuteSet σ x)) = _
    rw [applyLayers_equivariant attentionBlocks hAtt σ x, hPool σ (applyLayers attentionBlocks x)]
    rfl

/-- A concrete two-element pooling layer (sums the two set elements), used to
instantiate the invariance contract at a concrete input. -/
def sumPool : STensor 1 2 (Fin 2) → BTensor 1 (Fin 2) :=
  fun x j => x j 0 + x j 1

/-- A concrete input set with two distinct elements. -/
def xC2 : STensor 1 2 (Fin 2) := fun _ i => i

theorem C2_permutation_invariance_witness :
    (∀ f ∈ ([id] : List (STensor 1 2 (Fin 2) → STensor 1 2 (Fin 2))), EquivariantFn f) ∧
    InvariantFn sumPool ∧
    (DeepSet.call [id] sumPool id (permuteSet (Equiv.swap 0 1) xC2) =
       DeepSet.call [id] sumPool id xC2 ∧
     SetTransformer.call [id] sumPool (permuteSet (Equiv.swap 0 1) xC2) =
       SetTransformer.call [id] sumPool xC2) :=
  ⟨by unfold EquivariantFn; decide, by unfold InvariantFn; decide,
   C2_permutation_invariance [id] sumPool id [id] sumPool
     (by unfold EquivariantFn; decide) (by unfold InvariantFn; decide)
     (by unfold EquivariantFn; decide) (by unfold InvariantFn; decide)
     xC2 (Equiv.swap 0 1)⟩

/-! ## DeepSet construction (summary_networks.py, lines 148-213) -/

/-- A dense-layer argument dictionary as passed for `dense_s1_args`,
`dense_s2_args` and `dense_s3_args`. Its contents are opaque external
configuration; only the identity of the dictionary matters here. -/
inductive DenseArgs
  | defaultDenseInvariant
  | custom (id : Nat)
deriving DecidableEq, Repr

/-- Modelled from the spec: the defaults table `bayesflow.default_settings`
(not under `src/`) provides one shared default argument dictionary,
`DEFAULT_SETTING_DENSE_INVARIANT`, for the dense layers of the deep-set
modules; only its identity matters for the claims about argument resolution. -/
def DEFAULT_SETTING_DENSE_INVARIANT : DenseArgs := DenseArgs.defaultDenseInvariant

/-- The `pooling_fun` argument: a string name or an actual callable network
(opaque, carried as an identifier). -/
inductive PoolingFun
  | str (s : String)
  | callable (id : Nat)
deriving DecidableEq, Repr

/-- The settings dictionary assembled by `DeepSet.__init__` (lines 197-205). -/
structure DeepSetSettings where
  numDenseS1 : Nat
  numDenseS2 : Nat
  numDenseS3 : Nat
  denseS1Args : DenseArgs
  denseS2Args : DenseArgs
  denseS3Args : DenseArgs
  poolingFun : PoolingFun
deriving DecidableEq, Repr

/-- Embeds the settings-dictionary construction of `DeepSet.__init__`
(lines 197-205): each of the three dense-argument entries falls back to
`defaults.DEFAULT_SETTING_DENSE_INVARIANT` when the caller passed `None`. -/
def DeepSet.resolveSettings (numDenseS1 numDenseS2 numDenseS3 : Nat)
    (denseS1Args denseS2Args denseS3Args : Option DenseArgs)
    (poolingFun : PoolingFun) : DeepSetSettings :=
  ⟨numDenseS1, numDenseS2, numDenseS3,
   denseS1Args.getD DEFAULT_SETTING_DENSE_INVARIANT,
   denseS2Args.getD DEFAULT_SETTING_DENSE_INVARIANT,
   denseS3Args.getD DEFAULT_SETTING_DENSE_INVARIANT,
   poolingFun⟩

/-- An equivariant module of `bayesflow.helper_networks`, an external primitive
carrying its construction settings. -/
structure EquivariantModule where
  settings : DeepSetSettings
deriving DecidableEq, Repr

/-- An invariant module of `bayesflow.helper_networks`, an external primitive
carrying its construction settings. -/
structure InvariantModule where
  settings : DeepSetSettings
deriving DecidableEq, Repr

/-- Modelled from the spec: `InvariantModule` construction
(`bayesflow.helper_networks`, not under `src/`) selects the pooling function
from `settings`: the strings "mean" and "max" and an actual callable are
accepted, while an unknown string is an error condition that must fail at
construction (a configuration error), per spec sections 4.1 and 7. -/
def InvariantModule.make (settings : DeepSetSettings) :
    Except String InvariantModule :=
  match settings.poolingFun with
  | PoolingFun.str s =>
      if s = "mean" ∨ s = "max" then Except.ok ⟨settings⟩
      else Except.error "ConfigurationError: pooling_fun not understood"
  | PoolingFun.callable _ => Except.ok ⟨settings⟩

/-- The `DeepSet` model as assembled by `__init__`: the stack of equivariant
layers, the final invariant module, and the output dense layer of
`summary_dim` units with linear activation. -/
structure DeepSetModel where
  settings : DeepSetSettings
  equivLayers : List EquivariantModule
  inv : InvariantModule
  outLayerUnits : Nat
  summaryDim : Nat
deriving DecidableEq, Repr

/-- Embeds `DeepSet.__init__` (lines 194-213): assembles the settings
dictionary, creates `num_equiv` equivariant layers and the final invariant
module (whose construction validates `pooling_fun`), and the output dense
layer with `summary_dim` units. A configuration error in the invariant module
propagates out of construction. -/
def DeepSet.init (summaryDim numDenseS1 numDenseS2 numDenseS3 numEquiv : Nat)
    (denseS1Args denseS2Args denseS3Args : Option DenseArgs)
    (poolingFun : PoolingFun) : Except String DeepSetModel :=
  let settings := DeepSet.resolveSettings numDenseS1 numDenseS2 numDenseS3
    denseS1Args denseS2Args denseS3Args poolingFun
  let equivLayers := (List.range numEquiv).map (fun _ => EquivariantModule.mk settings)
  match InvariantModule.make settings with
  | Except.error e => Except.error e
  | Except.ok inv => Except.ok ⟨settings, equivLayers, inv, summaryDim, summaryDim⟩

/-- Claim C3: constructing a `DeepSet` with a `pooling_fun` string that is not
one of the recognized names fails during `__init__` with a configuration
error, rather than deferring the failure to call time or substituting a
default. -/
theorem C3_invalid_pooling_fails_at_init
    (summaryDim numDenseS1 numDenseS2 numDenseS3 numEquiv : Nat)
    (denseS1Args denseS2Args denseS3Args : Option DenseArgs)
    (s : String) (hMean : s ≠ "mean") (hMax : s ≠ "max") :
    DeepSet.init summaryDim numDenseS1 numDenseS2 numDenseS3 numEquiv
        denseS1Args denseS2Args denseS3Args (PoolingFun.str s) =
      Except.error "ConfigurationError: pooling_fun not understood" := by
  unfold DeepSet.init InvariantModule.make
  simp [DeepSet.resolveSettings, hMean, hMax]

theorem C3_invalid_pooling_fails_at_init_witness :
    "invalid_name" ≠ "mean" ∧ "invalid_name" ≠ "max" ∧
    DeepSet.init 10 2 2 2 2 none none none (PoolingFun.str "invalid_name") =
      Except.error "ConfigurationError: pooling_fun not understood" :=
  ⟨by decide, by decide,
   C3_invalid_pooling_fails_at_init 10 2 2 2 2 none none none
     "invalid_name" (by decide) (by decide)⟩

/-- Claim C10: whenever any of `dense_s1_args`, `dense_s2_args`,
`dense_s3_args` is `None`, `DeepSet.__init__` replaces it by the single shared
default `DEFAULT_SETTING_DENSE_INVARIANT`; in particular the equivariant-layer
arguments `dense_s3_args` receive the same invariant-layer default, so all
three layer groups resolve `None` to identical settings. -/
theorem C10_dense_args_share_invariant_default
    (numDenseS1 numDenseS2 numDenseS3 : Nat)
    (a1 a2 a3 : Option DenseArgs) (p : PoolingFun) :
    (DeepSet.resolveSettings numDenseS1 numDenseS2 numDenseS3 none a2 a3 p).denseS1Args =
      DEFAULT_SETTING_DENSE_INVARIANT ∧
    (DeepSet.resolveSettings numDenseS1 numDenseS2 numDenseS3 a1 none a3 p).denseS2Args =
      DEFAULT_SETTING_DENSE_INVARIANT ∧
    (DeepSet.resolveSettings numDenseS1 numDenseS2 numDenseS3 a1 a2 none p).denseS3Args =
      DEFAULT_SETTING_DENSE_INVARIANT ∧
    (DeepSet.resolveSettings numDenseS1 numDenseS2 numDenseS3 none none none p).denseS1Args =
      (DeepSet.resolveSettings numDenseS1 numDenseS2 numDenseS3 none none none p).denseS3Args ∧
    (DeepSet.resolveSettings numDenseS1 numDenseS2 numDenseS3 none none none p).denseS2Args =
      (DeepSet.resolveSettings numDenseS1 numDenseS2 numDenseS3 none none none p).denseS3Args :=
  ⟨rfl, rfl, rfl, rfl, rfl⟩

/-! ## InvariantNetwork, the deprecated alias (summary_networks.py, lines 239-256) -/

/-- A computation together with the warnings it emitted; warnings are
non-fatal, so the value is always present. -/
structure Warned (α : Type) where
  warnings : List String
  value : α
deriving Repr

/-- Embeds `InvariantNetwork.__init_subclass__` (lines 242-248): emits a
`DeprecationWarning` whenever the class is subclassed, then defers to the
superclass hook (which does nothing further here). -/
def InvariantNetwork.initSubclass (clsName : String) : Warned Unit :=
  ⟨[clsName ++ " will be deprecated at some point. Use ``DeepSet`` instead."], ()⟩

/-- Embeds `InvariantNetwork.__init__` (lines 250-256): emits a
`DeprecationWarning`, then delegates construction entirely to
`DeepSet.__init__` with the same arguments. -/
def InvariantNetwork.init (summaryDim numDenseS1 numDenseS2 numDenseS3 numEquiv : Nat)
    (denseS1Args denseS2Args denseS3Args : Option DenseArgs)
    (poolingFun : PoolingFun) : Warned (Except String DeepSetModel) :=
  ⟨["InvariantNetwork will be deprecated. at some point. Use ``DeepSet`` instead."],
   DeepSet.init summaryDim numDenseS1 numDenseS2 numDenseS3 numEquiv
     denseS1Args denseS2Args denseS3Args poolingFun⟩

/-- `InvariantNetwork` defines no `call` of its own: the forward pass is
inherited unchanged from `DeepSet` by method resolution. -/
def InvariantNetwork.call {b n : Nat} {V W U : Type}
    (equivLayers : List (STensor b n V → STensor b n V))
    (inv : STensor b n V → BTensor b W)
    (outLayer : BTensor b W → BTensor b U) :
    STensor b n V → BTensor b U :=
  DeepSet.call equivLayers inv outLayer

/-- Claim C8: `InvariantNetwork` emits a non-fatal `DeprecationWarning` both on
subclassing and on instantiation, and otherwise delegates fully to `DeepSet`:
construction with any argument list yields exactly the `DeepSet` construction
result, and the forward pass coincides with `DeepSet`'s on every input. -/
theorem C8_invariant_network_shim
    (summaryDim numDenseS1 numDenseS2 numDenseS3 numEquiv : Nat)
    (denseS1Args denseS2Args denseS3Args : Option DenseArgs)
    (poolingFun : PoolingFun) (clsName : String)
    {b n : Nat} {V W U : Type}
    (equivLayers : List (STensor b n V → STensor b n V))
    (inv : STensor b n V → BTensor b W)
    (outLayer : BTensor b W → BTensor b U)
    (x : STensor b n V) :
    (InvariantNetwork.init summaryDim numDenseS1 numDenseS2 numDenseS3 numEquiv
        denseS1Args denseS2Args denseS3Args poolingFun).warnings ≠ [] ∧
    (InvariantNetwork.initSubclass clsName).warnings ≠ [] ∧
    (InvariantNetwork.init summaryDim numDenseS1 numDenseS2 numDenseS3 numEquiv
        denseS1Args denseS2Args denseS3Args poolingFun).value =
      DeepSet.init summaryDim numDenseS1 numDenseS2 numDenseS3 numEquiv
        denseS1Args denseS2Args denseS3Args poolingFun ∧
    InvariantNetwork.call equivLayers inv outLayer x =
      DeepSet.call equivLayers inv outLayer x :=
  ⟨by simp [InvariantNetwork.init], by simp [InvariantNetwork.initSubclass], rfl, rfl⟩

/-! ## SplitNetwork (summary_networks.py, lines 328-388) -/

/-- The four summary-network classes of the module, as values, standing for the
constructor reference passed as `network_type` to `SplitNetwork.__init__`. -/
inductive NetworkType
  | invariantNetwork
  | deepSet
  | setTransformer
  | sequentialNetwork
deriving DecidableEq, Repr

/-- Embeds the default of the `network_type` parameter of
`SplitNetwork.__init__` (line 333): `network_type=InvariantNetwork`. -/
def SplitNetwork.defaultNetworkType : NetworkType := NetworkType.invariantNetwork

/-- Embeds `SplitNetwork.__init__` line 370 at the constructor-tag level:
`self.networks = [network_type(**network_kwargs) for _ in range(num_splits)]`,
recording which constructor is invoked for each of the `num_splits`
sub-networks. -/
def SplitNetwork.initNetworkTags (numSplits : Nat) (networkType : NetworkType) :
    List NetworkType :=
  (List.range numSplits).map (fun _ => networkType)

/-- Claim C4 counterexample: the claim says the default sub-network type of
`SplitNetwork` is `DeepSet`; the default in the code is the deprecated alias
`InvariantNetwork`, so with `num_splits = 2` the constructed tags are not the
`DeepSet` constructor. -/
theorem C4_default_type_counterexample :
    ¬(SplitNetwork.defaultNetworkType = NetworkType.deepSet ∧
      SplitNetwork.initNetworkTags 2 SplitNetwork.defaultNetworkType =
        [NetworkType.deepSet, NetworkType.deepSet]) := by
  decide

/-- Claim C4 (amended): the default `network_type` of `SplitNetwork` is
`InvariantNetwork`, the deprecated alias of `DeepSet`: constructing
`SplitNetwork(num_splits, f)` builds `num_splits` instances of
`InvariantNetwork`, each of which emits a `DeprecationWarning` and delegates
its construction entirely to `DeepSet.__init__` with the same arguments. -/
theorem C4_default_network_type (numSplits : Nat)
    (summaryDim numDenseS1 numDenseS2 numDenseS3 numEquiv : Nat)
    (denseS1Args denseS2Args denseS3Args : Option DenseArgs)
    (poolingFun : PoolingFun) :
    SplitNetwork.defaultNetworkType = NetworkType.invariantNetwork ∧
    SplitNetwork.initNetworkTags numSplits SplitNetwork.defaultNetworkType =
      List.replicate numSplits NetworkType.invariantNetwork ∧
    (InvariantNetwork.init summaryDim numDenseS1 numDenseS2 numDenseS3 numEquiv
        denseS1Args denseS2Args denseS3Args poolingFun).value =
      DeepSet.init summaryDim numDenseS1 numDenseS2 numDenseS3 numEquiv
        denseS1Args denseS2Args denseS3Args poolingFun :=
  ⟨rfl, by simp [SplitNetwork.initNetworkTags, SplitNetwork.defaultNetworkType,
     List.map_const], rfl⟩

/-- The `SplitNetwork` model as assembled by `__init__` (lines 366-370):
the split count, the routing function and the `num_splits` sub-networks,
each a separately constructed instance with its own parameters (hence an
arbitrary, independent function per index). Per-batch-element summary vectors
are lists over the feature axis. -/
structure SplitNetworkModel (Input SubInput : Type) (b : Nat) (V : Type) where
  numSplits : Nat
  splitDataConfigurator : Nat → Input → SubInput
  networks : Fin numSplits → SubInput → BTensor b (List V)

/-- Embeds `SplitNetwork.call` (lines 386-388): for each `i` in
`range(self.num_splits)`, feed `self.split_data_configurator(i, x)` to
`self.networks[i]`, and concatenate the results along the last (feature)
axis (`tf.concat(out, axis=-1)`). -/
def SplitNetwork.call {Input SubInput : Type} {b : Nat} {V : Type}
    (m : SplitNetworkModel Input SubInput b V) (x : Input) : BTensor b (List V) :=
  fun j => ((List.finRange m.numSplits).map
    (fun i => m.networks i (m.splitDataConfigurator i.val x) j)).flatten

/-- Claim C5: `SplitNetwork.call` computes, for each split index `i` in order,
the sub-input `split_data_configurator(i, x)`, feeds it to sub-network `i`, and
returns the concatenation of the `num_splits` summary vectors along the
feature axis; when every sub-network outputs `S` features the output has
`num_splits * S` features for every batch element. -/
theorem C5_split_call {Input SubInput : Type} {b : Nat} {V : Type} {S : Nat}
    (m : SplitNetworkModel Input SubInput b V)
    (hS : ∀ (i : Fin m.numSplits) (sub : SubInput) (j : Fin b),
      (m.networks i sub j).length = S)
    (x : Input) (j : Fin b) :
    SplitNetwork.call m x j =
      (List.ofFn (fun i : Fin m.numSplits =>
        m.networks i (m.splitDataConfigurator i.val x) j)).flatten ∧
    (SplitNetwork.call m x j).length = m.numSplits * S := by
  constructor
  · rw [List.ofFn_eq_map]
    rfl
  · show (((List.finRange m.numSplits).map
      (fun i => m.networks i (m.splitDataConfigurator i.val x) j)).flatten).length = _
    rw [List.length_flatten, List.map_map]
    have h1 : ∀ t ∈ (List.finRange m.numSplits).map
        (List.length ∘ fun i => m.networks i (m.splitDataConfigurator i.val x) j),
        t = S := by
      intro t ht
      rw [List.mem_map] at ht
      obtain ⟨i, _, hi⟩ := ht
      rw [← hi]
      exact hS i _ j
    rw [List.eq_replicate_of_mem h1]
    simp [List.sum_replicate, smul_eq_mul]

/-- A concrete two-split network over trivial inputs: sub-network `i` outputs
the single feature `i`. -/
def mC5 : SplitNetworkModel Unit Unit 1 Int :=
  ⟨2, fun _ _ => (), fun i _ _ => [(i.val : Int)]⟩

theorem C5_split_call_witness :
    (∀ (i : Fin mC5.numSplits) (sub : Unit) (j : Fin 1), (mC5.networks i sub j).length = 1) ∧
    (SplitNetwork.call mC5 () 0 =
       (List.ofFn (fun i : Fin mC5.numSplits =>
         mC5.networks i (mC5.splitDataConfigurator i.val ()) 0)).flatten ∧
     (SplitNetwork.call mC5 () 0).length = mC5.numSplits * 1) :=
  ⟨fun _ _ _ => rfl, C5_split_call mC5 (fun _ _ _ => rfl) () 0⟩

/-- A `SplitNetwork` with `num_splits = 2` and two separately supplied
sub-networks, as built by `__init__` from two independent instances. -/
def SplitNetwork.mk2 {Input SubInput : Type} {b : Nat} {V : Type}
    (cfg : Nat → Input → SubInput)
    (net0 net1 : SubInput → BTensor b (List V)) :
    SplitNetworkModel Input SubInput b V :=
  ⟨2, cfg, fun i => if i.val = 0 then net0 else net1⟩

/-- Computation of the two-split forward pass: the output is the feature-axis
concatenation of the two sub-network outputs. -/
theorem SplitNetwork.call_mk2 {Input SubInput : Type} {b : Nat} {V : Type}
    (cfg : Nat → Input → SubInput)
    (net0 net1 : SubInput → BTensor b (List V))
    (y : Input) (j : Fin b) :
    SplitNetwork.call (SplitNetwork.mk2 cfg net0 net1) y j =
      net0 (cfg 0 y) j ++ net1 (cfg 1 y) j := by
  show (((List.finRange 2).map _).flatten : List V) = _
  rw [show List.finRange 2 = [0, 1] from by decide]
  simp [SplitNetwork.mk2]

/-- Claim C9: for a two-split `SplitNetwork`, split 1's contribution to the
concatenated output — the slice of the feature axis after split 0's features —
is exactly sub-network 1 applied to `split_data_configurator(1, ·)`; on any two
inputs routed identically to split 1, that slice is identical, however the
sub-input routed to split 0 is perturbed. -/
theorem C9_split_independence {Input SubInput : Type} {b : Nat} {V : Type}
    (cfg : Nat → Input → SubInput)
    (net0 net1 : SubInput → BTensor b (List V))
    (x x' : Input)
    (hcfg : cfg 1 x = cfg 1 x')
    (j : Fin b) :
    (SplitNetwork.call (SplitNetwork.mk2 cfg net0 net1) x j).drop
        (net0 (cfg 0 x) j).length = net1 (cfg 1 x) j ∧
    (SplitNetwork.call (SplitNetwork.mk2 cfg net0 net1) x' j).drop
        (net0 (cfg 0 x') j).length = net1 (cfg 1 x) j := by
  rw [SplitNetwork.call_mk2 cfg net0 net1 x j, SplitNetwork.call_mk2 cfg net0 net1 x' j]
  rw [List.drop_left, List.drop_left, hcfg]
  exact ⟨rfl, rfl⟩

/-- Concrete routing for the C9 witness: split 1 always sees `true`, split 0
sees the raw input. -/
def cfgC9 : Nat → Bool → Bool := fun i inp => if i = 1 then true else inp

/-- Concrete split-0 sub-network for the C9 witness. -/
def net0C9 : Bool → BTensor 1 (List Int) := fun s _ => [if s then 1 else 0]

/-- Concrete split-1 sub-network for the C9 witness. -/
def net1C9 : Bool → BTensor 1 (List Int) := fun s _ => [if s then 2 else 3, 5]

theorem C9_split_independence_witness :
    cfgC9 1 true = cfgC9 1 false ∧
    ((SplitNetwork.call (SplitNetwork.mk2 cfgC9 net0C9 net1C9) true 0).drop
        (net0C9 (cfgC9 0 true) 0).length = net1C9 (cfgC9 1 true) 0 ∧
     (SplitNetwork.call (SplitNetwork.mk2 cfgC9 net0C9 net1C9) false 0).drop
        (net0C9 (cfgC9 0 false) 0).length = net1C9 (cfgC9 1 true) 0) :=
  ⟨rfl, C9_split_independence cfgC9 net0C9 net1C9 true false rfl 0⟩

/-- Claim C6: a `DeepSet` constructed with `summary_dim = S` and
`num_equiv = k` holds exactly `k` equivariant modules before its single
invariant module and its `S`-unit linear output layer; on any input with
`n_obs ≥ 1` set elements, the forward pass applies the equivariant stack, then
the invariant module (collapsing the element axis), then the output layer, and
every batch element of the result has exactly `S` features, independently of
`n_obs`. -/
theorem C6_deepset_structure_and_shape (S k : Nat)
    (numDenseS1 numDenseS2 numDenseS3 : Nat)
    {b n : Nat} {V W U : Type}
    (hn : 1 ≤ n)
    (equivLayers : List (STensor b n V → STensor b n V))
    (hk : equivLayers.length = k)
    (inv : STensor b n V → BTensor b W)
    (outLayer : BTensor b W → BTensor b (List U))
    (hOut : ∀ (w : BTensor b W) (j : Fin b), (outLayer w j).length = S)
    (x : STensor b n V) :
    (∃ m, DeepSet.init S numDenseS1 numDenseS2 numDenseS3 k
        none none none (PoolingFun.str "mean") = Except.ok m ∧
      m.equivLayers.length = k ∧ m.outLayerUnits = S ∧ m.summaryDim = S) ∧
    DeepSet.call equivLayers inv outLayer x = outLayer (inv (applyLayers equivLayers x)) ∧
    ∀ j, (DeepSet.call equivLayers inv outLayer x j).length = S := by
  refine ⟨⟨_, rfl, by simp [DeepSet.init], rfl, rfl⟩, rfl, fun j => hOut _ j⟩

/-- A concrete 2-feature output dense layer used to instantiate the C6 shape
contract. -/
def outLayerC6 : BTensor 1 Unit → BTensor 1 (List Int) := fun _ _ => [4, 7]

/-- A concrete invariant-module stand-in for the C6 witness. -/
def invC6 : STensor 1 1 (Fin 1) → BTensor 1 Unit := fun _ _ => ()

/-- A concrete one-element input set for the C6 witness. -/
def xC6 : STensor 1 1 (Fin 1) := fun _ _ => 0

theorem C6_deepset_structure_and_shape_witness :
    1 ≤ 1 ∧ ([id] : List (STensor 1 1 (Fin 1) → STensor 1 1 (Fin 1))).length = 1 ∧
    (∀ (w : BTensor 1 Unit) (j : Fin 1), (outLayerC6 w j).length = 2) ∧
    ((∃ m, DeepSet.init 2 2 2 2 1 none none none (PoolingFun.str "mean") = Except.ok m ∧
        m.equivLayers.length = 1 ∧ m.outLayerUnits = 2 ∧ m.summaryDim = 2) ∧
     DeepSet.call [id] invC6 outLayerC6 xC6 = outLayerC6 (invC6 (applyLayers [id] xC6)) ∧
     ∀ j, (DeepSet.call [id] invC6 outLayerC6 xC6 j).length = 2) :=
  ⟨Nat.le_refl 1, rfl, fun _ _ => rfl,
   C6_deepset_structure_and_shape 2 1 2 2 2 (Nat.le_refl 1) [id] rfl
     invC6 outLayerC6 (fun _ _ => rfl) xC6⟩

/-! ## SequentialNetwork (summary_networks.py, lines 259-325) -/

/-- The configuration of a `MultiConv1D` block: the inner `Conv1D` arguments
are opaque external configuration, the kernel-size range is explicit. -/
structure ConvSettings where
  minKernelSize : Nat
  maxKernelSize : Nat
deriving DecidableEq, Repr

/-- Modelled from the spec: the defaults table `bayesflow.default_settings`
(not under `src/`) provides `DEFAULT_SETTING_MULTI_CONV`, the settings used
when `conv_settings` is `None`; only its identity matters here, the numeric
contents are immaterial to the claims. -/
def DEFAULT_SETTING_MULTI_CONV : ConvSettings := ⟨1, 3⟩

/-- A multi-scale 1-D convolution block of `bayesflow.helper_networks`, an
external primitive carrying its construction settings. -/
structure MultiConv1D where
  settings : ConvSettings
deriving DecidableEq, Repr

/-- The `SequentialNetwork` model as assembled by `__init__` (lines 295-305):
the `Sequential` of `num_conv_layers` `MultiConv1D` blocks, the LSTM with
`lstm_units` hidden units, and the `summary_dim`-unit linear output layer. -/
structure SequentialNetworkModel where
  net : List MultiConv1D
  lstmUnits : Nat
  outLayerUnits : Nat
  summaryDim : Nat
deriving DecidableEq, Repr

/-- Embeds `SequentialNetwork.__init__` (lines 295-305): resolves a `None`
`conv_settings` to the defaults-table entry, builds `num_conv_layers`
`MultiConv1D` blocks, one LSTM of `lstm_units` units, and the output dense
layer with `summary_dim` units and linear activation. -/
def SequentialNetwork.init (summaryDim numConvLayers lstmUnits : Nat)
    (convSettings : Option ConvSettings) : SequentialNetworkModel :=
  let cs := convSettings.getD DEFAULT_SETTING_MULTI_CONV
  ⟨(List.range numConvLayers).map (fun _ => MultiConv1D.mk cs),
   lstmUnits, summaryDim, summaryDim⟩

/-- Embeds `SequentialNetwork.call` (lines 322-325): the convolutional stack,
then the LSTM (whose output type collapses the time axis: only the final
hidden state is returned), then the output dense layer. -/
def SequentialNetwork.call {b t : Nat} {V W U : Type}
    (net : List (STensor b t V → STensor b t V))
    (lstm : STensor b t V → BTensor b W)
    (outLayer : BTensor b W → BTensor b U)
    (x : STensor b t V) : BTensor b U :=
  outLayer (lstm (applyLayers net x))

/-- Claim C7: a `SequentialNetwork` constructed with `summary_dim = S`,
`num_conv_layers = c` and `lstm_units = u` holds exactly `c` multi-scale
convolution blocks, an LSTM of `u` hidden units, and an `S`-unit linear output
layer; the forward pass applies the convolution stack in sequence, then the
LSTM — which returns only its final hidden state of size `u` — then the output
layer, and every batch element of the result has exactly `S` features. -/
theorem C7_sequential_network_structure_and_shape (S c u : Nat)
    (convSettings : Option ConvSettings)
    {b t : Nat} {V : Type} {W U : Type}
    (net : List (STensor b t V → STensor b t V))
    (hc : net.length = c)
    (lstm : STensor b t V → BTensor b (List W))
    (hLstm : ∀ (y : STensor b t V) (j : Fin b), (lstm y j).length = u)
    (outLayer : BTensor b (List W) → BTensor b (List U))
    (hOut : ∀ (w : BTensor b (List W)) (j : Fin b), (outLayer w j).length = S)
    (x : STensor b t V) :
    (SequentialNetwork.init S c u convSettings).net.length = c ∧
    (SequentialNetwork.init S c u convSettings).lstmUnits = u ∧
    (SequentialNetwork.init S c u convSettings).outLayerUnits = S ∧
    SequentialNetwork.call net lstm outLayer x =
      outLayer (lstm (applyLayers net x)) ∧
    (∀ j, (lstm (applyLayers net x) j).length = u) ∧
    ∀ j, (SequentialNetwork.call net lstm outLayer x j).length = S := by
  refine ⟨by simp [SequentialNetwork.init], rfl, rfl, rfl,
    fun j => hLstm _ j, fun j => hOut _ j⟩

/-- A concrete 1-unit LSTM stand-in used to instantiate the C7 contracts. -/
def lstmC7 : STensor 1 2 Int → BTensor 1 (List Int) := fun y j => [y j 0 + y j 1]

/-- A concrete 3-feature output dense layer used to instantiate the C7
contracts. -/
def outLayerC7 : BTensor 1 (List Int) → BTensor 1 (List Int) := fun _ _ => [1, 2, 3]

theorem C7_sequential_network_structure_and_shape_witness :
    ([id] : List (STensor 1 2 Int → STensor 1 2 Int)).length = 1 ∧
    (∀ (y : STensor 1 2 Int) (j : Fin 1), (lstmC7 y j).length = 1) ∧
    (∀ (w : BTensor 1 (List Int)) (j : Fin 1), (outLayerC7 w j).length = 3) ∧
    ((SequentialNetwork.init 3 1 1 none).net.length = 1 ∧
     (SequentialNetwork.init 3 1 1 none).lstmUnits = 1 ∧
     (SequentialNetwork.init 3 1 1 none).outLayerUnits = 3 ∧
     SequentialNetwork.call [id] lstmC7 outLayerC7 (fun _ i => (i.val : Int)) =
       outLayerC7 (lstmC7 (applyLayers [id] (fun _ i => (i.val : Int)))) ∧
     (∀ j, (lstmC7 (applyLayers [id] (fun _ i => (i.val : Int))) j).length = 1) ∧
     ∀ j, (SequentialNetwork.call [id] lstmC7 outLayerC7 (fun _ i => (i.val : Int)) j).length = 3) :=
  ⟨rfl, fun _ _ => rfl, fun _ _ => rfl,
   C7_sequential_network_structure_and_shape 3 1 1 none [id] rfl lstmC7
     (fun _ _ => rfl) outLayerC7 (fun _ _ => rfl) (fun _ i => (i.val : Int))⟩
